import Mathlib

/-!
Verification development for the BenchBot API client
(src/benchbot_api/benchbot.py).

The embedding is shallow: the remote supervisor together with the HTTP
transport is modelled as a pure oracle (`Service`) mapping a fully built
address and an optional JSON payload to an `HttpOutcome`.  Every effectful
client routine becomes a pure function returning an `M` value: the
`Except`-classified outcome paired with the ordered trace of requests the
routine attempted, so that claims about which requests are (not) issued are
statable.  JSON values are modelled by `JVal`; Python exceptions by the
`BBError` sum.  The `run` helper, the `Agent` base class and the
filesystem-touching `result_filename` property are outside every claim and
are not embedded.
-/

/-- JSON values as decoded by resp.json in the Python client. -/
inductive JVal : Type where
  | null : JVal
  | bool : Bool → JVal
  | num : Int → JVal
  | str : String → JVal
  | arr : List JVal → JVal
  | obj : List (String × JVal) → JVal

/-- Python exceptions raised by the client, by class and message/payload.
`runtimeError` covers the RuntimeError raises in BenchBot.step;
`typeError` covers TypeErrors raised by evaluating ill-typed Python
expressions (such as None + str or str + int); `keyError` is a failed
dict subscript; `attributeError` a missing attribute; `connectionError`
is requests.ConnectionError; `unexpectedResponse` is the
_UnexpectedResponseError subclass of requests.RequestException carrying
the HTTP status code; `requestException` stands for the exception the
requests library itself raises on a transport-level failure. -/
inductive BBError : Type where
  | connectionError : String → BBError
  | unexpectedResponse : Nat → BBError
  | requestException : String → BBError
  | runtimeError : String → BBError
  | typeError : String → BBError
  | keyError : String → BBError
  | attributeError : String → BBError

/-- Outcome of one attempted HTTP exchange: either the transport raises
(unreachable host, timeout), or a response arrives with a status code and
a body; a body of `none` means resp.json would fail to decode. -/
inductive HttpOutcome : Type where
  | failure : HttpOutcome
  | response : Nat → Option JVal → HttpOutcome

/-- One attempted request: the full address, and the JSON payload for
requests issued with a json argument (`none` for plain GETs). -/
structure Req : Type where
  addr : String
  payload : Option (List (String × JVal))

/-- The remote supervisor plus transport, as a pure oracle. -/
structure Service : Type where
  get : String → Option (List (String × JVal)) → HttpOutcome

/-- Effect monad of the embedding: classified outcome plus the ordered
trace of requests attempted. -/
abbrev M (α : Type) : Type := Except BBError α × List Req

def M.pure {α : Type} (a : α) : M α := (Except.ok a, [])

def M.raise {α : Type} (e : BBError) : M α := (Except.error e, [])

def M.bind {α β : Type} (x : M α) (f : α → M β) : M β :=
  match x with
  | (Except.ok a, t) => ((f a).1, t ++ (f a).2)
  | (Except.error e, t) => (Except.error e, t)

/-- Lift a pure, request-free computation into `M`. -/
def liftE {α : Type} (e : Except BBError α) : M α := (e, [])

/-- Python str.join. -/
def joinStr (sep : String) : List String → String
  | [] => ""
  | [x] => x
  | x :: y :: rest => x ++ sep ++ joinStr sep (y :: rest)

/-- First-match association-list lookup, the order Python dicts preserve. -/
def assocLookup {β : Type} (l : List (String × β)) (k : String) : Option β :=
  match l with
  | [] => none
  | (k0, v0) :: rest => if k0 = k then some v0 else assocLookup rest k

/-- Python endswith with the one-character suffix slash, written over the
character list so that it reduces definitionally. -/
def endsWithSlash (s : String) : Bool :=
  match s.data.getLast? with
  | some c => c = '/'
  | none => false

/-- Python truthiness of a decoded JSON value. -/
def truthy : JVal → Bool
  | JVal.null => false
  | JVal.bool b => b
  | JVal.num n => n != 0
  | JVal.str s => !s.data.isEmpty
  | JVal.arr xs => !xs.isEmpty
  | JVal.obj kvs => !kvs.isEmpty

/-- Python subscript v[k] with a string key: succeeds on a dict holding
the key, raises KeyError on a dict without it, TypeError otherwise. -/
def dictGet (j : JVal) (k : String) : Except BBError JVal :=
  match j with
  | JVal.obj kvs =>
    match assocLookup kvs k with
    | some v => Except.ok v
    | none => Except.error (BBError.keyError k)
  | _ => Except.error (BBError.typeError "object is not subscriptable")

/-- Python str.split with a one-character separator: splits keeping empty
pieces, and yields one empty piece for the empty string. -/
def splitCharAux (sep : Char) : List Char → List Char → List String
  | [], acc => [String.mk acc.reverse]
  | c :: cs, acc =>
    if c = sep then String.mk acc.reverse :: splitCharAux sep cs []
    else splitCharAux sep cs (c :: acc)

def pySplit (s : String) (sep : Char) : List String := splitCharAux sep s.data []

/-- ActionResult from benchbot.py: result of an action an agent has taken. -/
inductive ActionResult : Type where
  | SUCCESS : ActionResult
  | FINISHED : ActionResult
  | COLLISION : ActionResult
deriving DecidableEq

/-- BenchBot.RouteType from benchbot.py. -/
inductive RouteType : Type where
  | CONNECTION : RouteType
  | CONFIG : RouteType
  | SIMULATOR : RouteType
  | STATUS : RouteType
  | EXPLICIT : RouteType
deriving DecidableEq

/-- Python Enum .name attribute of a RouteType member. -/
def RouteType.name : RouteType → String
  | RouteType.CONNECTION => "CONNECTION"
  | RouteType.CONFIG => "CONFIG"
  | RouteType.SIMULATOR => "SIMULATOR"
  | RouteType.STATUS => "STATUS"
  | RouteType.EXPLICIT => "EXPLICIT"

/-- The mutable client state relevant to the claims: the configured
supervisor address and the connection-callback registry built by start. -/
structure BState : Type where
  supervisor_address : String
  connection_callbacks : List (String × Option (JVal → JVal))

/-- BenchBot._build_address: ensure a trailing slash on the base, then
attach the per-route-type path piece.  The Python else branch raising
ValueError on an unrecognized route type is unreachable here because
`RouteType` is a closed enumeration, exactly as in the source where
every member of the Enum is matched. -/
def build_address (supervisor_address : String) (route_name : String) (route_type : RouteType) : String :=
  let base := supervisor_address ++ (if endsWithSlash supervisor_address then "" else "/")
  match route_type with
  | RouteType.CONNECTION => base ++ "connections/" ++ route_name
  | RouteType.CONFIG => base ++ "config/" ++ route_name
  | RouteType.SIMULATOR => base ++ "simulator/" ++ route_name
  | RouteType.STATUS => base ++ "status/" ++ route_name
  | RouteType.EXPLICIT => base ++ route_name

/-- Message of the ConnectionError raised by the bare except in
BenchBot._receive. -/
def receiveFailMsg : String :=
  "Failed to establish a connection to BenchBot supervisor"

/-- Try block of BenchBot._receive: perform the GET, raise the
_UnexpectedResponseError on a status of 300 or more, otherwise decode
the body with resp.json (a ValueError when the body is not JSON). -/
def receiveTryBody (svc : Service) (self_addr route_name : String) (route_type : RouteType) : Except BBError JVal :=
  match svc.get (build_address self_addr route_name route_type) none with
  | HttpOutcome.failure =>
    Except.error (BBError.requestException "requests.get raised")
  | HttpOutcome.response status body =>
    if 300 ≤ status then Except.error (BBError.unexpectedResponse status)
    else
      match body with
      | some j => Except.ok j
      | none => Except.error (BBError.typeError "resp.json raised")

/-- BenchBot._receive: the try block above wrapped in the bare except of
the source, which catches every exception raised inside it, including
the _UnexpectedResponseError it itself raised, and replaces it with a
ConnectionError carrying a fixed message. -/
def _receive (svc : Service) (self_addr route_name : String) (route_type : RouteType) : M JVal :=
  (match receiveTryBody svc self_addr route_name route_type with
   | Except.ok j => Except.ok j
   | Except.error _ => Except.error (BBError.connectionError receiveFailMsg),
   [Req.mk (build_address self_addr route_name route_type) none])

/-- Python repr of a flat JSON value; nested containers, which no call in
this client ever places inside an action-argument dict, are abbreviated.
Used only to format the _send failure message, whose exact text no claim
depends on. -/
def pyReprAtom : JVal → String
  | JVal.null => "None"
  | JVal.bool b => if b then "True" else "False"
  | JVal.num n => toString n
  | JVal.str s => "\x27" ++ s ++ "\x27"
  | JVal.arr _ => "[...]"
  | JVal.obj _ => "\x7b...\x7d"

/-- Python repr of the action-arguments dict, as interpolated by the
percent-s formatting in the _send failure message. -/
def pyReprDict (kvs : List (String × JVal)) : String :=
  "\x7b" ++ joinStr ", " (kvs.map (fun kv => "\x27" ++ kv.1 ++ "\x27: " ++ pyReprAtom kv.2)) ++ "\x7d"

/-- Message of the ConnectionError raised by the bare except in
BenchBot._send, formatted from the route name, the Enum name of the
route type and the (already defaulted) data dict. -/
def sendFailMsg (route_name : String) (route_type : RouteType) (data : List (String × JVal)) : String :=
  "Failed to establish a connection to BenchBot supervisor with " ++
    "input data: " ++ route_name ++ ", " ++ route_type.name ++ ", " ++ pyReprDict data

/-- Try block of BenchBot._send: perform the GET carrying the JSON data,
raise the _UnexpectedResponseError on a status of 300 or more; the body
is never decoded. -/
def sendTryBody (svc : Service) (self_addr route_name : String) (d : List (String × JVal)) (route_type : RouteType) : Except BBError Unit :=
  match svc.get (build_address self_addr route_name route_type) (some d) with
  | HttpOutcome.failure =>
    Except.error (BBError.requestException "requests.get raised")
  | HttpOutcome.response status _ =>
    if 300 ≤ status then Except.error (BBError.unexpectedResponse status)
    else Except.ok ()

/-- BenchBot._send: default a missing data dict to the empty dict, then
run the try block wrapped in the bare except of the source, which
catches every exception, including the _UnexpectedResponseError, and
replaces it with a ConnectionError naming the inputs. -/
def _send (svc : Service) (self_addr route_name : String) (data : Option (List (String × JVal))) (route_type : RouteType) : M Unit :=
  let d := data.getD []
  (match sendTryBody svc self_addr route_name d route_type with
   | Except.ok _ => Except.ok ()
   | Except.error _ => Except.error (BBError.connectionError (sendFailMsg route_name route_type d)),
   [Req.mk (build_address self_addr route_name route_type) (some d)])

/-- The BenchBot.actions property: empty list when the live is_collided
or is_finished flag is truthy (with Python or short-circuiting), the
service-declared action list from the config namespace otherwise. -/
def actions (svc : Service) (self_addr : String) : M JVal :=
  M.bind (_receive svc self_addr "is_collided" RouteType.SIMULATOR) (fun cj =>
  M.bind (liftE (dictGet cj "is_collided")) (fun cv =>
  if truthy cv then M.pure (JVal.arr [])
  else
    M.bind (_receive svc self_addr "is_finished" RouteType.STATUS) (fun fj =>
    M.bind (liftE (dictGet fj "is_finished")) (fun fv =>
    if truthy fv then M.pure (JVal.arr [])
    else _receive svc self_addr "actions" RouteType.CONFIG))))

/-- The BenchBot.observations property. -/
def observations (svc : Service) (self_addr : String) : M JVal :=
  _receive svc self_addr "observations" RouteType.CONFIG

/-- The fixed key list zipped against the split task name in the
BenchBot.task_details property. -/
def task_keys : List String := ["type", "control_mode", "localisation_mode"]

/-- The BenchBot.task_details property: fetch task_name from the config
namespace, split it on the colon, and build a dict by zipping the fixed
key list positionally against the pieces; zip stops at the shorter side.
Calling split on a non-string decode raises AttributeError. -/
def task_details (svc : Service) (self_addr : String) : M (List (String × String)) :=
  M.bind (_receive svc self_addr "task_name" RouteType.CONFIG) (fun t =>
  match t with
  | JVal.str s => M.pure (List.zip task_keys (pySplit s ':'))
  | _ => M.raise (BBError.attributeError "split"))

/-- The fixed action schema VALID_ACTIONS of BenchBot.step: action name
to the list of required argument names, in source order. -/
def VALID_ACTIONS : List (String × List String) :=
  [("move_next", []), ("move_distance", ["distance"]), ("move_angle", ["angle"])]

/-- Message of the TypeError Python raises when evaluating None plus a
string, as the first validity check of BenchBot.step does for a None
action while building its RuntimeError message. -/
def noneConcatMsg : String :=
  "unsupported operand type(s) for +: \x27NoneType\x27 and \x27str\x27"

/-- Message of the TypeError Python raises when concatenating a string
with an int, as the argument-count check of BenchBot.step does while
building its RuntimeError message from the two bare int lengths. -/
def strIntConcatMsg : String :=
  "can only concatenate str (not \x22int\x22) to str"

/-- Message of the RuntimeError raised for an action name that is not a
key of VALID_ACTIONS (note the source leaves the opening quote of the
list unclosed). -/
def invalidActionMsg (a : String) : String :=
  a ++ " not a valid action. Valid actions are \x22" ++
    joinStr ", " (VALID_ACTIONS.map Prod.fst)

/-- Message of the RuntimeError raised for a supplied argument name that
is not in the required set; the source joins with a space-comma
separator and, because it resets its accumulator every iteration, the
invalid list holds exactly the one offending name. -/
def invalidArgMsg (a : String) (validArgs : List String) (bad : String) : String :=
  "Valid arguments to " ++ a ++ " are: " ++ joinStr " ," validArgs ++
    ". The following arguments are invalid: " ++ bad

/-- The argument-name loop of BenchBot.step: walk the supplied kwargs in
order; the accumulator of invalid names is reset at every iteration, so
the first name outside the required list raises with that single name. -/
def firstInvalidArg (a : String) (validArgs : List String) : List (String × JVal) → Option BBError
  | [] => none
  | (argName, _) :: rest =>
    if validArgs.contains argName then firstInvalidArg a validArgs rest
    else some (BBError.runtimeError (invalidArgMsg a validArgs argName))

/-- The three validity checks at the top of BenchBot.step, in source
order.  A None action is not a key of VALID_ACTIONS, so the first check
fires and evaluating None plus the message string raises TypeError
before the RuntimeError can be built; an unknown string action raises
the RuntimeError; a wrong argument count evaluates string plus int and
raises TypeError; a wrong argument name raises the RuntimeError from
the loop.  `none` means every check passed. -/
def validate_action (action : Option String) (action_kwargs : List (String × JVal)) : Option BBError :=
  match action with
  | none => some (BBError.typeError noneConcatMsg)
  | some a =>
    match assocLookup VALID_ACTIONS a with
    | none => some (BBError.runtimeError (invalidActionMsg a))
    | some validArgs =>
      if action_kwargs.length ≠ validArgs.length then
        some (BBError.typeError strIntConcatMsg)
      else firstInvalidArg a validArgs action_kwargs

/-- The result-derivation block of BenchBot.step: start from SUCCESS,
query is_collided on the simulator namespace, and only when it is falsy
query is_finished on the status namespace. -/
def deriveResult (svc : Service) (self_addr : String) : M ActionResult :=
  M.bind (_receive svc self_addr "is_collided" RouteType.SIMULATOR) (fun cj =>
  M.bind (liftE (dictGet cj "is_collided")) (fun cv =>
  if truthy cv then M.pure ActionResult.COLLISION
  else
    M.bind (_receive svc self_addr "is_finished" RouteType.STATUS) (fun fj =>
    M.bind (liftE (dictGet fj "is_finished")) (fun fv =>
    M.pure (if truthy fv then ActionResult.FINISHED else ActionResult.SUCCESS)))))

/-- Walk the elements of the decoded observation list in order; keys the
service declares are strings (spec section 6), and any other element
shape would fail the iteration with TypeError. -/
def iterStrsAux : List JVal → Except BBError (List String)
  | [] => Except.ok []
  | JVal.str s :: rest =>
    match iterStrsAux rest with
    | Except.ok tail => Except.ok (s :: tail)
    | Except.error e => Except.error e
  | _ :: _ => Except.error (BBError.typeError "observation key is not a string")

/-- Extract the observation key list the step loop iterates over; a
decode that is not an array fails the iteration with TypeError. -/
def iterStrs : JVal → Except BBError (List String)
  | JVal.arr xs => iterStrsAux xs
  | _ => Except.error (BBError.typeError "observations is not iterable")

/-- The raw-observation dict comprehension of BenchBot.step: one receive
on the connection namespace per key, in list order, no batching. -/
def fetchRawObservations (svc : Service) (self_addr : String) : List String → M (List (String × JVal))
  | [] => M.pure []
  | o :: rest =>
    M.bind (_receive svc self_addr o RouteType.CONNECTION) (fun v =>
    M.bind (fetchRawObservations svc self_addr rest) (fun tail =>
    M.pure ((o, v) :: tail)))

/-- Apply an optional connection callback the way the final dict
comprehension of BenchBot.step does: a callback that is not None is
applied, a None callback passes the raw value through. -/
def applyOpt (cb : Option (JVal → JVal)) (v : JVal) : JVal :=
  match cb with
  | some f => f v
  | none => v

/-- The final dict comprehension of BenchBot.step: for every fetched
key, subscript the connection-callback registry with that key (KeyError
when the key has no entry) and apply the entry when it is not None. -/
def applyCallbacks (cbs : List (String × Option (JVal → JVal))) : List (String × JVal) → Except BBError (List (String × JVal))
  | [] => Except.ok []
  | (k, v) :: rest =>
    match assocLookup cbs k with
    | none => Except.error (BBError.keyError k)
    | some cb =>
      match applyCallbacks cbs rest with
      | Except.ok tail => Except.ok ((k, applyOpt cb v) :: tail)
      | Except.error e => Except.error e

/-- BenchBot.step: run the three validity checks (raising before any
request when one fails), send the action with its arguments over the
connection namespace when the action is not None, derive the
ActionResult, then fetch the observation key list and every raw
observation and push each through the callback registry.  The progress
print of the action being sent is console output outside the model. -/
def step (svc : Service) (st : BState) (action : Option String) (action_kwargs : List (String × JVal)) : M (List (String × JVal) × ActionResult) :=
  match validate_action action action_kwargs with
  | some e => (Except.error e, [])
  | none =>
    M.bind
      (match action with
       | some a => _send svc st.supervisor_address a (some action_kwargs) RouteType.CONNECTION
       | none => M.pure ())
      (fun _ =>
    M.bind (deriveResult svc st.supervisor_address) (fun action_result =>
    M.bind (observations svc st.supervisor_address) (fun obsJson =>
    M.bind (liftE (iterStrs obsJson)) (fun keys =>
    M.bind (fetchRawObservations svc st.supervisor_address keys) (fun raw_os =>
    M.bind (liftE (applyCallbacks st.connection_callbacks raw_os)) (fun mapped =>
    M.pure (mapped, action_result)))))))

/-- BenchBot.reset: when the simulator reports a dirty state, issue the
restart request (a read-style call in the source), then delegate to
step with a None action and no arguments. -/
def reset (svc : Service) (st : BState) : M (List (String × JVal) × ActionResult) :=
  M.bind (_receive svc st.supervisor_address "is_dirty" RouteType.SIMULATOR) (fun dj =>
  M.bind (liftE (dictGet dj "is_dirty")) (fun dv =>
  M.bind
    (if truthy dv then
      M.bind (_receive svc st.supervisor_address "restart" RouteType.SIMULATOR) (fun _ => M.pure ())
     else M.pure ())
    (fun _ => step svc st none [])))

/-- Message of the ConnectionError BenchBot.start raises when the root
probe fails, written right-associated so the address stands between two
literal pieces. -/
def couldNotFindMsg (self_addr : String) : String :=
  "Could not find a BenchBot supervisor @ \x27" ++
    (self_addr ++ "\x27. Are you sure it is available?")

/-- The connection-establishment phase of BenchBot.start: probe the root
EXPLICIT route once; the except clause catches the ConnectionError that
_receive normalizes every failure into and re-raises the same class
with a message naming the configured supervisor address.  The later
phases of start (the unbounded is_running poll and the callback-registry
build) follow only when the probe succeeds and are outside this
definition. -/
def start_probe (svc : Service) (self_addr : String) : M Unit :=
  match _receive svc self_addr "/" RouteType.EXPLICIT with
  | (Except.ok _, t) => (Except.ok (), t)
  | (Except.error e, t) =>
    match e with
    | BBError.connectionError _ =>
      (Except.error (BBError.connectionError (couldNotFindMsg self_addr)), t)
    | other => (Except.error other, t)

/-- Concrete supervisor address used by the witness scenarios. -/
def exAddr : String := "http://benchbot_supervisor:10000/"

/-- A supervisor that is reachable and answers every route with HTTP
status 404 and no decodable body. -/
def svcAll404 : Service where
  get := fun _ _ => HttpOutcome.response 404 none

/-- A supervisor that is unreachable: every request fails at transport
level. -/
def svcUnreachable : Service where
  get := fun _ _ => HttpOutcome.failure

/-- A healthy supervisor for one step of move_next: not collided, not
finished, one declared observation key rgb with raw value 7. -/
def svcC4x : Service where
  get := fun a _ =>
    if a = "http://benchbot_supervisor:10000/connections/move_next" then
      HttpOutcome.response 200 (some JVal.null)
    else if a = "http://benchbot_supervisor:10000/simulator/is_collided" then
      HttpOutcome.response 200 (some (JVal.obj [("is_collided", JVal.bool false)]))
    else if a = "http://benchbot_supervisor:10000/status/is_finished" then
      HttpOutcome.response 200 (some (JVal.obj [("is_finished", JVal.bool false)]))
    else if a = "http://benchbot_supervisor:10000/config/observations" then
      HttpOutcome.response 200 (some (JVal.arr [JVal.str "rgb"]))
    else if a = "http://benchbot_supervisor:10000/connections/rgb" then
      HttpOutcome.response 200 (some (JVal.num 7))
    else HttpOutcome.failure

/-- Client state whose connection-callback registry is empty, as after a
start against a robot config declaring no connections. -/
def stEmptyCBs : BState where
  supervisor_address := exAddr
  connection_callbacks := []

/-- A supervisor for the positive observation scenario: collided (so the
result is terminal), two declared observation keys rgb and depth. -/
def svcC4w : Service where
  get := fun a _ =>
    if a = "http://benchbot_supervisor:10000/connections/move_next" then
      HttpOutcome.response 200 (some JVal.null)
    else if a = "http://benchbot_supervisor:10000/simulator/is_collided" then
      HttpOutcome.response 200 (some (JVal.obj [("is_collided", JVal.bool true)]))
    else if a = "http://benchbot_supervisor:10000/status/is_finished" then
      HttpOutcome.response 200 (some (JVal.obj [("is_finished", JVal.bool false)]))
    else if a = "http://benchbot_supervisor:10000/config/observations" then
      HttpOutcome.response 200 (some (JVal.arr [JVal.str "rgb", JVal.str "depth"]))
    else if a = "http://benchbot_supervisor:10000/connections/rgb" then
      HttpOutcome.response 200 (some (JVal.num 7))
    else if a = "http://benchbot_supervisor:10000/connections/depth" then
      HttpOutcome.response 200 (some (JVal.num 9))
    else HttpOutcome.failure

/-- Raw observation values served by svcC4w, keyed for the witness. -/
def rawC4 (k : String) : JVal :=
  if k = "rgb" then JVal.num 7 else if k = "depth" then JVal.num 9 else JVal.null

/-- A registry with a declared callback on rgb (wrapping the value in a
singleton array) and a pass-through None entry on depth. -/
def cbC4 (k : String) : Option (JVal → JVal) :=
  if k = "rgb" then some (fun v => JVal.arr [v]) else none

/-- Client state carrying the svcC4w registry. -/
def stC4w : BState where
  supervisor_address := exAddr
  connection_callbacks := [("rgb", some (fun v => JVal.arr [v])), ("depth", none)]

/-- A supervisor whose simulator reports both collided and finished, with
a declared action list; used for the tie-break and actions witnesses. -/
def svcBothFlags : Service where
  get := fun a _ =>
    if a = "http://benchbot_supervisor:10000/simulator/is_collided" then
      HttpOutcome.response 200 (some (JVal.obj [("is_collided", JVal.bool true)]))
    else if a = "http://benchbot_supervisor:10000/status/is_finished" then
      HttpOutcome.response 200 (some (JVal.obj [("is_finished", JVal.bool true)]))
    else if a = "http://benchbot_supervisor:10000/config/actions" then
      HttpOutcome.response 200 (some (JVal.arr [JVal.str "move_next"]))
    else HttpOutcome.failure

/-- A supervisor whose simulator reports neither collided nor finished,
with a declared action list; used for the actions witness. -/
def svcIdleFlags : Service where
  get := fun a _ =>
    if a = "http://benchbot_supervisor:10000/simulator/is_collided" then
      HttpOutcome.response 200 (some (JVal.obj [("is_collided", JVal.bool false)]))
    else if a = "http://benchbot_supervisor:10000/status/is_finished" then
      HttpOutcome.response 200 (some (JVal.obj [("is_finished", JVal.bool false)]))
    else if a = "http://benchbot_supervisor:10000/config/actions" then
      HttpOutcome.response 200 (some (JVal.arr [JVal.str "move_next"]))
    else HttpOutcome.failure

/-- A supervisor answering the task_name config route with a two-field
colon-delimited task name. -/
def svcTaskName : Service where
  get := fun a _ =>
    if a = "http://benchbot_supervisor:10000/config/task_name" then
      HttpOutcome.response 200 (some (JVal.str "semantic_slam:passive"))
    else HttpOutcome.failure

/-- Modelled from the spec (section 4.1): the fixed per-namespace path
piece of the Route Resolver contract. -/
def routeSegment : RouteType → String
  | RouteType.CONNECTION => "connections/"
  | RouteType.CONFIG => "config/"
  | RouteType.SIMULATOR => "simulator/"
  | RouteType.STATUS => "status/"
  | RouteType.EXPLICIT => ""

/-- Modelled from the spec (section 4.1): resolve(base, resourceName,
namespace) is base with a trailing slash ensured, concatenated with the
fixed per-namespace piece and the resource name. -/
def resolve_spec (base resourceName : String) (ns : RouteType) : String :=
  (base ++ (if endsWithSlash base then "" else "/")) ++ routeSegment ns ++ resourceName

/-- A GET answered with a success status and a decodable body makes
_receive return the decoded value and log exactly that one request. -/
theorem receive_resp_ok (svc : Service) (addr name : String) (rt : RouteType) (j : JVal)
    (h : svc.get (build_address addr name rt) none = HttpOutcome.response 200 (some j)) :
    _receive svc addr name rt = (Except.ok j, [Req.mk (build_address addr name rt) none]) := by
  simp [_receive, receiveTryBody, h]

/-- A GET answered with a success status makes _send succeed and log
exactly that one payload-carrying request. -/
theorem send_resp_ok (svc : Service) (addr name : String) (rt : RouteType)
    (d : List (String × JVal)) (body : Option JVal)
    (h : svc.get (build_address addr name rt) (some d) = HttpOutcome.response 200 body) :
    _send svc addr name (some d) rt = (Except.ok (), [Req.mk (build_address addr name rt) (some d)]) := by
  simp [_send, sendTryBody, h]

/-- Result derivation under boolean flags: is_collided is queried first,
is_finished only when the collision flag is false, and the result is
COLLISION, then FINISHED, then SUCCESS. -/
theorem deriveResult_flags (svc : Service) (addr : String) (c f : Bool)
    (hc : svc.get (build_address addr "is_collided" RouteType.SIMULATOR) none =
      HttpOutcome.response 200 (some (JVal.obj [("is_collided", JVal.bool c)])))
    (hf : svc.get (build_address addr "is_finished" RouteType.STATUS) none =
      HttpOutcome.response 200 (some (JVal.obj [("is_finished", JVal.bool f)]))) :
    deriveResult svc addr =
      (Except.ok (if c then ActionResult.COLLISION
                  else if f then ActionResult.FINISHED else ActionResult.SUCCESS),
       Req.mk (build_address addr "is_collided" RouteType.SIMULATOR) none ::
         (if c then [] else [Req.mk (build_address addr "is_finished" RouteType.STATUS) none])) := by
  have h1 := receive_resp_ok svc addr "is_collided" RouteType.SIMULATOR _ hc
  have h2 := receive_resp_ok svc addr "is_finished" RouteType.STATUS _ hf
  cases c <;> cases f <;>
    simp [deriveResult, M.bind, M.pure, liftE, dictGet, assocLookup, truthy, h1, h2]

/-- Fetching raw observations issues one GET per key, in order. -/
theorem fetchRaw_ok (svc : Service) (addr : String) (keys : List String) (raw : String → JVal)
    (h : ∀ k ∈ keys, svc.get (build_address addr k RouteType.CONNECTION) none =
      HttpOutcome.response 200 (some (raw k))) :
    fetchRawObservations svc addr keys =
      (Except.ok (keys.map (fun k => (k, raw k))),
       keys.map (fun k => Req.mk (build_address addr k RouteType.CONNECTION) none)) := by
  induction keys with
  | nil => simp [fetchRawObservations, M.pure]
  | cons k rest ih =>
    have hk := receive_resp_ok svc addr k RouteType.CONNECTION _ (h k (by simp))
    have hrest := ih (fun k2 hk2 => h k2 (by simp [hk2]))
    simp [fetchRawObservations, M.bind, M.pure, hk, hrest]

/-- When every key has a registry entry, the final comprehension applies
each entry with applyOpt, keeping keys and order. -/
theorem applyCallbacks_ok (cbs : List (String × Option (JVal → JVal)))
    (keys : List String) (raw : String → JVal) (cb : String → Option (JVal → JVal))
    (h : ∀ k ∈ keys, assocLookup cbs k = some (cb k)) :
    applyCallbacks cbs (keys.map (fun k => (k, raw k))) =
      Except.ok (keys.map (fun k => (k, applyOpt (cb k) (raw k)))) := by
  induction keys with
  | nil => simp [applyCallbacks]
  | cons k rest ih =>
    have hrest := ih (fun k2 hk2 => h k2 (by simp [hk2]))
    simp [applyCallbacks, h k (by simp), hrest]

/-- A JSON array of strings iterates to exactly those strings. -/
theorem iterStrs_map_str (keys : List String) :
    iterStrs (JVal.arr (keys.map JVal.str)) = Except.ok keys := by
  rw [iterStrs]
  induction keys with
  | nil => simp [iterStrsAux]
  | cons k rest ih => simp [iterStrsAux, ih]

/-- The schema has exactly three entries; a successful lookup pins the
action name and its required-argument list to one of them. -/
theorem valid_actions_cases (a : String) (req : List String)
    (h : assocLookup VALID_ACTIONS a = some req) :
    (a = "move_next" ∧ req = []) ∨ (a = "move_distance" ∧ req = ["distance"]) ∨
      (a = "move_angle" ∧ req = ["angle"]) := by
  simp only [VALID_ACTIONS, assocLookup] at h
  split_ifs at h with h1 h2 h3 <;> simp_all

/-- Claim C1: the claim states that a step called with a None action
bypasses validation, sends nothing, and proceeds to result derivation
and observation fetching.  The code instead always fails for a None
action: the first validity check finds None is not a key of
VALID_ACTIONS and, while building the RuntimeError message, evaluates
None plus a string, raising TypeError before any request is issued (the
trace is empty), for every service, client state and argument dict.
Since reset delegates to step with a None action, reset can never reach
the initial observation snapshot the spec promises. -/
theorem c1_step_none_raises_before_any_request (svc : Service) (st : BState)
    (kwargs : List (String × JVal)) :
    step svc st none kwargs = (Except.error (BBError.typeError noneConcatMsg), []) := rfl

/-- Claim C2: the claim states that an HTTP failure status raises the
distinct UnexpectedResponse error carrying the status code,
distinguishable from the ConnectionFailure raised on transport failure.
In the code the bare except in both _receive and _send catches the
_UnexpectedResponseError the try block just raised and replaces it with
the same ConnectionError the transport failure produces, so a status of
300 or more and an unreachable host are indistinguishable to the
caller: all three conjuncts below produce connectionError. -/
theorem c2_http_status_collapsed_to_connection_error :
    (∀ (svc : Service) (addr name : String) (rt : RouteType) (status : Nat) (body : Option JVal),
      svc.get (build_address addr name rt) none = HttpOutcome.response status body →
      300 ≤ status →
      _receive svc addr name rt =
        (Except.error (BBError.connectionError receiveFailMsg),
         [Req.mk (build_address addr name rt) none])) ∧
    (∀ (svc : Service) (addr name : String) (rt : RouteType)
        (d : List (String × JVal)) (status : Nat) (body : Option JVal),
      svc.get (build_address addr name rt) (some d) = HttpOutcome.response status body →
      300 ≤ status →
      _send svc addr name (some d) rt =
        (Except.error (BBError.connectionError (sendFailMsg name rt d)),
         [Req.mk (build_address addr name rt) (some d)])) ∧
    (∀ (svc : Service) (addr name : String) (rt : RouteType),
      svc.get (build_address addr name rt) none = HttpOutcome.failure →
      _receive svc addr name rt =
        (Except.error (BBError.connectionError receiveFailMsg),
         [Req.mk (build_address addr name rt) none])) := by
  refine ⟨?_, ?_, ?_⟩
  · intro svc addr name rt status body h h300
    simp [_receive, receiveTryBody, h, h300]
  · intro svc addr name rt d status body h h300
    simp [_send, sendTryBody, h, h300]
  · intro svc addr name rt h
    simp [_receive, receiveTryBody, h]

theorem c2_witness :
    _receive svcAll404 exAddr "/" RouteType.EXPLICIT =
      (Except.error (BBError.connectionError receiveFailMsg),
       [Req.mk (build_address exAddr "/" RouteType.EXPLICIT) none]) ∧
    _send svcAll404 exAddr "move_next" (some []) RouteType.CONNECTION =
      (Except.error (BBError.connectionError (sendFailMsg "move_next" RouteType.CONNECTION [])),
       [Req.mk (build_address exAddr "move_next" RouteType.CONNECTION) (some [])]) ∧
    _receive svcUnreachable exAddr "/" RouteType.EXPLICIT =
      (Except.error (BBError.connectionError receiveFailMsg),
       [Req.mk (build_address exAddr "/" RouteType.EXPLICIT) none]) :=
  ⟨c2_http_status_collapsed_to_connection_error.1 svcAll404 exAddr "/" RouteType.EXPLICIT
      404 none rfl (by decide),
   c2_http_status_collapsed_to_connection_error.2.1 svcAll404 exAddr "move_next"
      RouteType.CONNECTION [] 404 none rfl (by decide),
   c2_http_status_collapsed_to_connection_error.2.2 svcUnreachable exAddr "/"
      RouteType.EXPLICIT rfl⟩

/-- Claim C3: the claim states that a wrong argument count for a schema
action fails with an ArgumentCountMismatch error stating the action and
the two counts.  The step does abort before sending anything (the trace
is empty), but the error is a TypeError: the source concatenates the
bare int lengths into the message string, so the RuntimeError stating
the counts is never built. -/
theorem c3_count_mismatch_raises_type_error (svc : Service) (st : BState) (a : String)
    (req : List String) (kwargs : List (String × JVal))
    (h1 : assocLookup VALID_ACTIONS a = some req)
    (h2 : kwargs.length ≠ req.length) :
    step svc st (some a) kwargs = (Except.error (BBError.typeError strIntConcatMsg), []) := by
  simp [step, validate_action, h1, h2]

theorem c3_witness :
    step svcC4x stEmptyCBs (some "move_next") [("foo", JVal.num 1)] =
      (Except.error (BBError.typeError strIntConcatMsg), []) :=
  c3_count_mismatch_raises_type_error svcC4x stEmptyCBs "move_next" []
    [("foo", JVal.num 1)] rfl (by decide)

/-- Claim C5: step result derivation is a deterministic function of the
two flags, queried is_collided first and is_finished only afterwards
(and only when not collided, by the elif short-circuit); the result is
COLLISION when collided, else FINISHED when finished, else SUCCESS, so
COLLISION wins when both flags are true. -/
theorem c5_result_derivation_collision_first (svc : Service) (addr : String) (c f : Bool)
    (hc : svc.get (build_address addr "is_collided" RouteType.SIMULATOR) none =
      HttpOutcome.response 200 (some (JVal.obj [("is_collided", JVal.bool c)])))
    (hf : svc.get (build_address addr "is_finished" RouteType.STATUS) none =
      HttpOutcome.response 200 (some (JVal.obj [("is_finished", JVal.bool f)]))) :
    deriveResult svc addr =
      (Except.ok (if c then ActionResult.COLLISION
                  else if f then ActionResult.FINISHED else ActionResult.SUCCESS),
       Req.mk (build_address addr "is_collided" RouteType.SIMULATOR) none ::
         (if c then [] else [Req.mk (build_address addr "is_finished" RouteType.STATUS) none])) :=
  deriveResult_flags svc addr c f hc hf

theorem c5_witness :
    deriveResult svcBothFlags exAddr =
      (Except.ok ActionResult.COLLISION,
       [Req.mk (build_address exAddr "is_collided" RouteType.SIMULATOR) none]) := by
  have h := c5_result_derivation_collision_first svcBothFlags exAddr true true rfl rfl
  simpa using h

/-- Claim C6: every access of the actions property issues the live
is_collided query (the trace of each access starts with it, so nothing
is cached), the result is the empty list whenever either flag is
truthy, and otherwise it is exactly the service-declared action list;
the Python or short-circuits, so is_finished is only queried when the
collision flag is false. -/
theorem c6_actions_requery_and_emptiness (svc : Service) (addr : String) (c f : Bool) (al : JVal)
    (hc : svc.get (build_address addr "is_collided" RouteType.SIMULATOR) none =
      HttpOutcome.response 200 (some (JVal.obj [("is_collided", JVal.bool c)])))
    (hf : svc.get (build_address addr "is_finished" RouteType.STATUS) none =
      HttpOutcome.response 200 (some (JVal.obj [("is_finished", JVal.bool f)])))
    (ha : svc.get (build_address addr "actions" RouteType.CONFIG) none =
      HttpOutcome.response 200 (some al)) :
    actions svc addr =
      (Except.ok (if c || f then JVal.arr [] else al),
       Req.mk (build_address addr "is_collided" RouteType.SIMULATOR) none ::
         (if c then []
          else Req.mk (build_address addr "is_finished" RouteType.STATUS) none ::
            (if f then [] else [Req.mk (build_address addr "actions" RouteType.CONFIG) none]))) := by
  have h1 := receive_resp_ok svc addr "is_collided" RouteType.SIMULATOR _ hc
  have h2 := receive_resp_ok svc addr "is_finished" RouteType.STATUS _ hf
  have h3 := receive_resp_ok svc addr "actions" RouteType.CONFIG _ ha
  cases c <;> cases f <;>
    simp [actions, M.bind, M.pure, liftE, dictGet, assocLookup, truthy, h1, h2, h3]

theorem c6_witness :
    actions svcBothFlags exAddr =
      (Except.ok (JVal.arr []),
       [Req.mk (build_address exAddr "is_collided" RouteType.SIMULATOR) none]) ∧
    actions svcIdleFlags exAddr =
      (Except.ok (JVal.arr [JVal.str "move_next"]),
       [Req.mk (build_address exAddr "is_collided" RouteType.SIMULATOR) none,
        Req.mk (build_address exAddr "is_finished" RouteType.STATUS) none,
        Req.mk (build_address exAddr "actions" RouteType.CONFIG) none]) := by
  constructor
  · have h := c6_actions_requery_and_emptiness svcBothFlags exAddr true true
      (JVal.arr [JVal.str "move_next"]) rfl rfl rfl
    simpa using h
  · have h := c6_actions_requery_and_emptiness svcIdleFlags exAddr false false
      (JVal.arr [JVal.str "move_next"]) rfl rfl rfl
    simpa using h

/-- Claim C7: for a schema action called with exactly the required
number of keyword arguments of which some name is outside the required
set, step fails before sending anything with the RuntimeError whose
message names the valid arguments and lists the offending name. -/
theorem c7_invalid_argument_name (svc : Service) (st : BState) (a : String)
    (req : List String) (kwargs : List (String × JVal))
    (h1 : assocLookup VALID_ACTIONS a = some req)
    (h2 : kwargs.length = req.length)
    (h3 : ∃ p ∈ kwargs, ¬ req.contains p.1) :
    ∃ bad w, (bad, w) ∈ kwargs ∧ ¬ req.contains bad ∧
      step svc st (some a) kwargs =
        (Except.error (BBError.runtimeError (invalidArgMsg a req bad)), []) := by
  rcases valid_actions_cases a req h1 with ⟨ha, hr⟩ | ⟨ha, hr⟩ | ⟨ha, hr⟩ <;> subst ha <;> subst hr
  · rw [List.length_nil, List.length_eq_zero] at h2
    subst h2
    simp at h3
  all_goals
    rw [List.length_singleton, List.length_eq_one] at h2
    obtain ⟨p, rfl⟩ := h2
    obtain ⟨q, hq, hbad⟩ := h3
    rw [List.mem_singleton] at hq
    subst hq
    rw [Bool.not_eq_true] at hbad
    have hne := hbad
    simp at hne
    refine ⟨q.1, q.2, List.mem_singleton.mpr rfl, by simpa using hne, ?_⟩
    simp [step, validate_action, VALID_ACTIONS, assocLookup, firstInvalidArg, hne]

theorem c7_witness :
    ∃ bad w, (bad, w) ∈ ([("foo", JVal.num 1)] : List (String × JVal)) ∧
      ¬ (["distance"].contains bad) ∧
      step svcC4x stEmptyCBs (some "move_distance") [("foo", JVal.num 1)] =
        (Except.error (BBError.runtimeError (invalidArgMsg "move_distance" ["distance"] bad)), []) :=
  c7_invalid_argument_name svcC4x stEmptyCBs "move_distance" ["distance"]
    [("foo", JVal.num 1)] rfl rfl ⟨("foo", JVal.num 1), by simp, by decide⟩

/-- Claim C8: when the root reachability probe cannot reach the service,
the connection phase of start fails with a ConnectionError (the same
requests.ConnectionError class _receive normalizes into, re-raised via
type of e) whose message contains the configured supervisor address. -/
theorem c8_start_probe_failure_names_address (svc : Service) (addr : String)
    (h : svc.get (build_address addr "/" RouteType.EXPLICIT) none = HttpOutcome.failure) :
    start_probe svc addr =
      (Except.error (BBError.connectionError (couldNotFindMsg addr)),
       [Req.mk (build_address addr "/" RouteType.EXPLICIT) none]) ∧
    ∃ pre post, couldNotFindMsg addr = pre ++ (addr ++ post) := by
  constructor
  · simp [start_probe, _receive, receiveTryBody, h]
  · exact ⟨"Could not find a BenchBot supervisor @ \x27",
      "\x27. Are you sure it is available?", rfl⟩

theorem c8_witness :
    start_probe svcUnreachable exAddr =
      (Except.error (BBError.connectionError (couldNotFindMsg exAddr)),
       [Req.mk (build_address exAddr "/" RouteType.EXPLICIT) none]) ∧
    ∃ pre post, couldNotFindMsg exAddr = pre ++ (exAddr ++ post) :=
  c8_start_probe_failure_names_address svcUnreachable exAddr rfl

/-- Claim C9: for a non-empty base, a resource name, and any of the five
recognized route types, the address builder agrees with the Route
Resolver contract of the spec: base with a trailing slash ensured,
then the fixed per-namespace piece, then the resource name.  Both sides
are total functions of their inputs (pure), and the unrecognized-route
failure of the source is unreachable over the closed RouteType
enumeration. -/
theorem c9_build_address_matches_resolver (base name : String) (rt : RouteType)
    (hbase : base ≠ "") :
    build_address base name rt = resolve_spec base name rt := by
  cases rt <;> simp [build_address, resolve_spec, routeSegment, String.append_empty]

theorem c9_witness :
    ("http://benchbot_supervisor:10000" : String) ≠ "" ∧
    build_address "http://benchbot_supervisor:10000" "is_collided" RouteType.SIMULATOR =
      resolve_spec "http://benchbot_supervisor:10000" "is_collided" RouteType.SIMULATOR :=
  ⟨by decide,
   c9_build_address_matches_resolver "http://benchbot_supervisor:10000" "is_collided"
     RouteType.SIMULATOR (by decide)⟩

/-- Claim C10: task_details splits the fetched task name on the colon
and zips the pieces positionally against the fixed key list; the zip
stops at the shorter side, so fewer than three fields yield only the
keys for the fields present and fields beyond the third are dropped,
and no error is raised in either case (the outcome is ok). -/
theorem c10_task_details_zip_truncates (svc : Service) (addr : String) (s : String)
    (h : svc.get (build_address addr "task_name" RouteType.CONFIG) none =
      HttpOutcome.response 200 (some (JVal.str s))) :
    task_details svc addr =
      (Except.ok (List.zip task_keys (pySplit s ':')),
       [Req.mk (build_address addr "task_name" RouteType.CONFIG) none]) ∧
    (List.zip task_keys (pySplit s ':')).length = min 3 (pySplit s ':').length := by
  have h1 := receive_resp_ok svc addr "task_name" RouteType.CONFIG _ h
  constructor
  · simp [task_details, M.bind, M.pure, h1]
  · simp [List.length_zip, task_keys]

theorem c10_witness :
    task_details svcTaskName exAddr =
      (Except.ok (List.zip task_keys (pySplit "semantic_slam:passive" ':')),
       [Req.mk (build_address exAddr "task_name" RouteType.CONFIG) none]) ∧
    (List.zip task_keys (pySplit "semantic_slam:passive" ':')).length =
      min 3 (pySplit "semantic_slam:passive" ':').length :=
  c10_task_details_zip_truncates svcTaskName exAddr "semantic_slam:passive" rfl

/-- Claim C4, amended: for every step (here the argument-free move_next)
and for all flag values, including the terminal COLLISION and FINISHED
outcomes, the observation key list is fetched and then each raw value
is fetched with one request per key in list order; the returned map
applies the registry callback to each value when the entry of the key
declares one and passes the value through when the entry is present but
None.  The hypothesis hcb records the amendment: every observation key
must have a registry entry, because the comprehension subscripts the
registry directly and an absent entry raises KeyError instead of
passing the value through (see the counterexample). -/
theorem c4_observations_fetched_and_mapped (svc : Service) (st : BState) (c f : Bool)
    (body1 : Option JVal) (obsKeys : List String)
    (raw : String → JVal) (cb : String → Option (JVal → JVal))
    (hsend : svc.get (build_address st.supervisor_address "move_next" RouteType.CONNECTION)
      (some []) = HttpOutcome.response 200 body1)
    (hc : svc.get (build_address st.supervisor_address "is_collided" RouteType.SIMULATOR) none =
      HttpOutcome.response 200 (some (JVal.obj [("is_collided", JVal.bool c)])))
    (hf : svc.get (build_address st.supervisor_address "is_finished" RouteType.STATUS) none =
      HttpOutcome.response 200 (some (JVal.obj [("is_finished", JVal.bool f)])))
    (hobs : svc.get (build_address st.supervisor_address "observations" RouteType.CONFIG) none =
      HttpOutcome.response 200 (some (JVal.arr (obsKeys.map JVal.str))))
    (hraw : ∀ k ∈ obsKeys,
      svc.get (build_address st.supervisor_address k RouteType.CONNECTION) none =
        HttpOutcome.response 200 (some (raw k)))
    (hcb : ∀ k ∈ obsKeys, assocLookup st.connection_callbacks k = some (cb k)) :
    step svc st (some "move_next") [] =
      (Except.ok (obsKeys.map (fun k => (k, applyOpt (cb k) (raw k))),
                  if c then ActionResult.COLLISION
                  else if f then ActionResult.FINISHED else ActionResult.SUCCESS),
       Req.mk (build_address st.supervisor_address "move_next" RouteType.CONNECTION) (some []) ::
         Req.mk (build_address st.supervisor_address "is_collided" RouteType.SIMULATOR) none ::
           ((if c then []
             else [Req.mk (build_address st.supervisor_address "is_finished" RouteType.STATUS) none]) ++
            Req.mk (build_address st.supervisor_address "observations" RouteType.CONFIG) none ::
              obsKeys.map (fun k =>
                Req.mk (build_address st.supervisor_address k RouteType.CONNECTION) none))) := by
  have hs := send_resp_ok svc st.supervisor_address "move_next" RouteType.CONNECTION [] body1 hsend
  have hd := deriveResult_flags svc st.supervisor_address c f hc hf
  have hgo := receive_resp_ok svc st.supervisor_address "observations" RouteType.CONFIG _ hobs
  have hfr := fetchRaw_ok svc st.supervisor_address obsKeys raw hraw
  have hac := applyCallbacks_ok st.connection_callbacks obsKeys raw cb hcb
  have hi := iterStrs_map_str obsKeys
  cases c <;> cases f <;>
    simp [step, validate_action, VALID_ACTIONS, assocLookup, firstInvalidArg,
          observations, M.bind, M.pure, liftE, hs, hd, hgo, hfr, hac, hi]

theorem c4_witness :
    step svcC4w stC4w (some "move_next") [] =
      (Except.ok ((["rgb", "depth"] : List String).map
                    (fun k => (k, applyOpt (cbC4 k) (rawC4 k))),
                  ActionResult.COLLISION),
       Req.mk (build_address exAddr "move_next" RouteType.CONNECTION) (some []) ::
         Req.mk (build_address exAddr "is_collided" RouteType.SIMULATOR) none ::
           Req.mk (build_address exAddr "observations" RouteType.CONFIG) none ::
             (["rgb", "depth"] : List String).map
               (fun k => Req.mk (build_address exAddr k RouteType.CONNECTION) none)) := by
  have h := c4_observations_fetched_and_mapped svcC4w stC4w true false (some JVal.null)
    ["rgb", "depth"] rawC4 cbC4 rfl rfl rfl rfl
    (by intro k hk; simp at hk; rcases hk with rfl | rfl <;> rfl)
    (by intro k hk; simp at hk; rcases hk with rfl | rfl <;> rfl)
  simpa using h

/-- Claim C4, counterexample to the absent-entry clause: a healthy step
whose single observation key rgb has no entry in the registry does not
pass the raw value through; the comprehension subscripts the registry
and the step fails with KeyError rgb. -/
theorem c4_counterexample_missing_entry_keyerror :
    (step svcC4x stEmptyCBs (some "move_next") []).1 =
      Except.error (BBError.keyError "rgb") := rfl
